import Mathlib

/-!
Verification of the subscription-service core (Go + PostgreSQL).

Shallow embedding of:
* the period model `model.ParseMonthYear` / `model.formatMonthYear`
  (src/unnamed/part_000, package `model`),
* the date validation `validateDates`
  (src/internal/service/subscription_service.go),
* the cost aggregation `CalculateTotalCost`
  (src/internal/repository/subscription_repo.go), whose arithmetic is the
  SQL query built there and evaluated by PostgreSQL.

Dates: every date that reaches the store is produced by
`model.ParseMonthYear` / `model.ParseMonthYearPtr`, i.e. the first day of a
month at midnight UTC (`time.Parse("01-2006", s)`), and the DB column is a
DATE.  We therefore represent a stored date by its calendar month, and a
calendar month `(month, year)` by its absolute month index
`12*year + month - 1 : Int`.  The difference of two month indices is exactly
`12*(y1 - y2) + (m1 - m2)`, the calendar-month difference.
-/

namespace SubService

/-- A calendar month, as produced by `model.ParseMonthYear`
(Go `time.Time` with day = 1, midnight UTC). `month` is 1-based. -/
structure MonthDate where
  month : Nat
  year : Nat
deriving DecidableEq, Repr

/-- Absolute month index of a `MonthDate`: `12*year + month - 1`.
Two parsed dates compare (`time.Time.Before`, `<=` in SQL) exactly as their
month indices do, because they all sit on day 1, midnight. -/
def monthIndex (d : MonthDate) : Int :=
  12 * (d.year : Int) + (d.month : Int) - 1

/-- Value of an ASCII digit character, `none` when not a digit.
Mirrors Go's `isDigit`/`getnum` in `time.Parse`, which accept only
ASCII `'0'..'9'`. -/
def digitVal (c : Char) : Option Nat :=
  if '0' ≤ c ∧ c ≤ '9' then some (c.toNat - '0'.toNat) else none

/-- The ASCII digit character for `n ≤ 9` (used by zero-padded formatting,
Go `appendInt`). -/
def digitChar (n : Nat) : Char :=
  Char.ofNat ('0'.toNat + n)

/-- `model.ParseMonthYear` on the character list of the token.
Go `time.Parse("01-2006", s)` accepts exactly: two ASCII digits (month,
fixed width), a literal `'-'`, four ASCII digits (year), nothing else,
and range-checks the month into 1..12 ("month out of range" otherwise).
The empty string is rejected up front in `ParseMonthYear` and by the layout
as well.  Success yields the first day of that month. -/
def parseMonthYearChars (cs : List Char) : Option MonthDate :=
  match cs with
  | [m1, m2, d, y1, y2, y3, y4] =>
    match digitVal m1, digitVal m2, digitVal y1, digitVal y2, digitVal y3, digitVal y4 with
    | some a, some b, some c1, some c2, some c3, some c4 =>
      if d = '-' then
        let m := 10 * a + b
        if 1 ≤ m ∧ m ≤ 12 then
          some ⟨m, 1000 * c1 + 100 * c2 + 10 * c3 + c4⟩
        else none
      else none
    | _, _, _, _, _, _ => none
  | _ => none

/-- `model.ParseMonthYear` (src/unnamed/part_000): parse an "MM-YYYY" token;
`none` is the Go error case (all parse failures are the InvalidFormat
error kind). -/
def ParseMonthYear (s : String) : Option MonthDate :=
  parseMonthYearChars s.data

/-- `model.formatMonthYear` on characters: Go `t.Format("01-2006")`,
month zero-padded to width 2, year zero-padded to width 4 (`appendInt`),
for the representable domain `month ≤ 99`, `year ≤ 9999` (every parsed
date is in this domain). -/
def formatMonthYearChars (d : MonthDate) : List Char :=
  [digitChar (d.month / 10), digitChar (d.month % 10), '-',
   digitChar (d.year / 1000), digitChar (d.year % 1000 / 100),
   digitChar (d.year % 100 / 10), digitChar (d.year % 10)]

/-- `model.formatMonthYear` (src/unnamed/part_000). -/
def formatMonthYear (d : MonthDate) : String :=
  String.mk (formatMonthYearChars d)

/-- Go's `time.Time.IsZero` on a parsed month: the zero time is
January 1, year 1, midnight UTC, i.e. the parse of "01-0001". -/
def isZeroDate (d : MonthDate) : Bool :=
  d.month == 1 && d.year == 1

/-- Go's `end.Before(start)` on two parsed months (both are day 1,
midnight, so this is strict month-index order). -/
def beforeDate (a b : MonthDate) : Bool :=
  decide (monthIndex a < monthIndex b)

/-- The two error kinds produced by `validateDates`
(src/internal/service/subscription_service.go): "start date is required"
(MissingStart) and "end date cannot be before start date" (InvalidRange). -/
inductive DateError where
  | missingStart
  | invalidRange
deriving DecidableEq, Repr

/-- `validateDates` (src/internal/service/subscription_service.go:254).
`none` is the Go `nil` (success).  Note the guard `!endDate.IsZero()`:
a present end date equal to the zero time skips the range check. -/
def validateDates (startDate : MonthDate) (endDate : Option MonthDate) : Option DateError :=
  if isZeroDate startDate then some .missingStart
  else
    match endDate with
    | some e =>
      if !isZeroDate e && beforeDate e startDate then some .invalidRange
      else none
    | none => none

/-- A stored subscription row (table `subscriptions`, src/unnamed/part_001;
model `Subscription` in src/unnamed/part_000).  `userID` encodes the
`uuid.UUID` column with `0` standing for `uuid.Nil` (the all-zero UUID);
`startM`/`endM` are month indices of the stored dates (every stored date is
the first of a month, see the file header); `endM = none` is SQL NULL. -/
structure Subscription where
  serviceName : String
  monthlyCost : Int
  userID : Nat
  startM : Int
  endM : Option Int
deriving DecidableEq, Repr

/-- `model.SummaryFilter` (src/unnamed/part_000): the query parameters of
`CalculateTotalCost`.  `userID = 0` encodes `uuid.Nil` (filter unset),
`serviceName = ""` encodes filter unset, mirroring the Go zero values. -/
structure SummaryFilter where
  userID : Nat
  serviceName : String
  startPeriod : String
  endPeriod : String

/-- Total months (`EXTRACT(YEAR ...)*12 + EXTRACT(MONTH ...)`) of PostgreSQL
`age(e, s)` where `e` is the last day of a month at 23:59:59 and `s` is the
first day of a month at midnight, as a function of the calendar-month
difference `c = monthIndex(e) - monthIndex(s)`.

Derivation from PostgreSQL `timestamp_age`:
* `c ≥ 0`: the field-wise difference has month part `c`, a positive day
  part (`lastDay - 1 ≥ 27`) and positive time part, so no borrowing touches
  the month count: result `c`.
* `c < 0`: the sign is flipped (month part `-c`, day part `-(lastDay-1)`,
  time part `-23:59:59`), the time borrow turns the day part into
  `-lastDay`, and one day borrow adds `day_tab` of e's month (= `lastDay`)
  while decrementing the month count to `-c - 1`; negating back gives
  `c + 1`. -/
def ageMonthsLastFirst (c : Int) : Int :=
  if 0 ≤ c then c else c + 1

/-- Total months of PostgreSQL `age(a, b)` where both `a` and `b` are first
days of months at midnight (day and time parts of the difference are zero,
so no borrowing in either sign): the calendar-month difference itself. -/
def ageMonthsFirstFirst (c : Int) : Int :=
  c

/-- The WHERE clause of the `CalculateTotalCost` query
(src/internal/repository/subscription_repo.go:293):
`start_date <= $1 AND (end_date IS NULL OR end_date >= $2)` where
`$1` is the period end (last day of the end month) and `$2` the period
start (first day of the start month).  On stored (day-1) dates this is
exactly the month-index comparison. -/
def eligibleB (pS pE : Int) (s : Subscription) : Bool :=
  decide (s.startM ≤ pE) &&
    (match s.endM with
     | none => true
     | some e => decide (pS ≤ e))

/-- The filter conditions appended to the query
(src/internal/repository/subscription_repo.go:336): `user_id = $n` is added
only when `filter.UserID != uuid.Nil`, `service_name = $n` only when
`filter.ServiceName != ""`. -/
def filterMatchB (f : SummaryFilter) (s : Subscription) : Bool :=
  (f.userID == 0 || s.userID == f.userID) &&
    (f.serviceName == "" || s.serviceName == f.serviceName)

/-- The `LEAST(...)` months expression of the query
(src/internal/repository/subscription_repo.go:285), per selected row:

    LEAST(
      EXTRACT(YEAR FROM age($1, start_date))*12 + EXTRACT(MONTH FROM age($1, start_date)),
      EXTRACT(YEAR FROM age(end_date, $2))*12 + EXTRACT(MONTH FROM age(end_date, $2)) + 1,
      EXTRACT(YEAR FROM age($1, $2))*12 + EXTRACT(MONTH FROM age($1, $2)) + 1)

with `$1` = period end (last day, 23:59:59), `$2` = period start (day 1,
midnight).  When `end_date` IS NULL its operand is NULL and PostgreSQL's
`LEAST` ignores NULL arguments, so that term drops out.  Note the first
operand has no `+ 1`. -/
def chargedMonths (pS pE : Int) (s : Subscription) : Int :=
  let q1 := ageMonthsLastFirst (pE - s.startM)
  let q3 := ageMonthsLastFirst (pE - pS) + 1
  match s.endM with
  | none => min q1 q3
  | some e => min q1 (min (ageMonthsFirstFirst (e - pS) + 1) q3)

/-- `subscriptionRepo.CalculateTotalCost`
(src/internal/repository/subscription_repo.go:279): parse the two period
tokens with `model.ParseMonthYear` (error → `none`), build the period
boundaries (first day of the start month, last day 23:59:59 of the end
month — month indices suffice, see `ageMonthsLastFirst`), and evaluate

    SELECT COALESCE(SUM(monthly_cost * LEAST(...)), 0) FROM subscriptions
    WHERE <eligibility> [AND user_id = ...] [AND service_name = ...]

over the given rows: the sum over rows passing the WHERE clause of
`monthly_cost * chargedMonths`, `0` when no row passes. -/
def CalculateTotalCost (subs : List Subscription) (f : SummaryFilter) : Option Int :=
  match ParseMonthYear f.startPeriod, ParseMonthYear f.endPeriod with
  | some sp, some ep =>
    some ((subs.map (fun s =>
      if eligibleB (monthIndex sp) (monthIndex ep) s && filterMatchB f s then
        s.monthlyCost * chargedMonths (monthIndex sp) (monthIndex ep) s
      else 0)).sum)
  | _, _ => none

/-- Modelled from the spec's words (for the refinement claim about the
overlap formula): the charged months of one eligible subscription,
`max(0, min(q1, q2, q3))` with `q1 = monthsBetween(periodEnd, startDate)`,
`q2 = monthsBetween(endDate, periodStart) + 1` when `endDate` is present
and unbounded (dropped from the min) when absent, and
`q3 = monthsBetween(periodEnd, periodStart) + 1`, where `monthsBetween`
is the calendar-month difference `12*(year(a)-year(b)) + (month(a)-month(b))`
= the difference of month indices. -/
def specChargedMonths (pS pE : Int) (s : Subscription) : Int :=
  let q1 := pE - s.startM
  let q3 := pE - pS + 1
  max 0
    (match s.endM with
     | none => min q1 q3
     | some e => min q1 (min (e - pS + 1) q3))

/-- Modelled from the spec's words: the total as the sum over eligible
records of `monthlyCost * specChargedMonths` (no owner/service filter). -/
def specTotal (subs : List Subscription) (pS pE : Int) : Int :=
  (subs.map (fun s =>
    if eligibleB pS pE s then s.monthlyCost * specChargedMonths pS pE s
    else 0)).sum

/-- The total with no owner/service restriction at all (the code-side
months formula summed over every eligible record). -/
def totalUnfiltered (subs : List Subscription) (pS pE : Int) : Int :=
  (subs.map (fun s =>
    if eligibleB pS pE s then s.monthlyCost * chargedMonths pS pE s
    else 0)).sum

/-! ## Helper lemmas -/

lemma digitVal_digitChar (a : Nat) (ha : a ≤ 9) : digitVal (digitChar a) = some a := by
  interval_cases a <;> decide

lemma parse_format (m y : Nat) (h1 : 1 ≤ m) (h2 : m ≤ 12) (h3 : y ≤ 9999) :
    ParseMonthYear (formatMonthYear ⟨m, y⟩) = some ⟨m, y⟩ := by
  show parseMonthYearChars (formatMonthYearChars ⟨m, y⟩) = some ⟨m, y⟩
  simp only [formatMonthYearChars, parseMonthYearChars]
  rw [digitVal_digitChar _ (by omega), digitVal_digitChar _ (by omega),
      digitVal_digitChar _ (by omega), digitVal_digitChar _ (by omega),
      digitVal_digitChar _ (by omega), digitVal_digitChar _ (by omega)]
  simp only [ite_true]
  rw [if_pos (by omega : 1 ≤ 10 * (m / 10) + m % 10 ∧ 10 * (m / 10) + m % 10 ≤ 12)]
  simp only [Option.some.injEq, MonthDate.mk.injEq]
  omega

lemma eligibleB_true_iff (pS pE : Int) (s : Subscription) :
    eligibleB pS pE s = true ↔
      s.startM ≤ pE ∧ (s.endM = none ∨ ∃ e, s.endM = some e ∧ pS ≤ e) := by
  cases hE : s.endM <;> simp [eligibleB, hE]

lemma chargedMonths_eq_spec (pS pE : Int) (s : Subscription) (hle : pS ≤ pE)
    (he : eligibleB pS pE s = true) :
    chargedMonths pS pE s = specChargedMonths pS pE s := by
  rw [eligibleB_true_iff] at he
  cases hE : s.endM with
  | none =>
    simp only [chargedMonths, specChargedMonths, ageMonthsLastFirst, hE]
    omega
  | some e =>
    rcases he with ⟨hs, he2⟩
    rcases he2 with h | ⟨e2, he2, hpe⟩
    · rw [hE] at h; cases h
    · rw [hE] at he2; cases he2
      simp only [chargedMonths, specChargedMonths, ageMonthsLastFirst,
        ageMonthsFirstFirst, hE]
      omega

lemma chargedMonths_nonneg (pS pE : Int) (s : Subscription) (hle : pS ≤ pE)
    (he : eligibleB pS pE s = true) : 0 ≤ chargedMonths pS pE s := by
  rw [eligibleB_true_iff] at he
  cases hE : s.endM with
  | none =>
    simp only [chargedMonths, ageMonthsLastFirst, hE]
    omega
  | some e =>
    rcases he with ⟨hs, h | ⟨e2, he2, hpe⟩⟩
    · rw [hE] at h; cases h
    · rw [hE] at he2; cases he2
      simp only [chargedMonths, ageMonthsLastFirst, ageMonthsFirstFirst, hE]
      omega

lemma total_eq_spec (pS pE : Int) (hle : pS ≤ pE) (subs : List Subscription)
    (f : SummaryFilter) (hu : f.userID = 0) (hs : f.serviceName = "") :
    (subs.map (fun s =>
      if eligibleB pS pE s && filterMatchB f s then
        s.monthlyCost * chargedMonths pS pE s
      else 0)).sum = specTotal subs pS pE := by
  unfold specTotal
  induction subs with
  | nil => rfl
  | cons s rest ih =>
    simp only [List.map_cons, List.sum_cons, ih]
    congr 1
    have hf : filterMatchB f s = true := by
      simp [filterMatchB, hu, hs]
    rw [hf, Bool.and_true]
    by_cases he : eligibleB pS pE s
    · rw [if_pos he, if_pos he, chargedMonths_eq_spec pS pE s hle he]
    · rw [if_neg he, if_neg he]

lemma total_nonneg (pS pE : Int) (hle : pS ≤ pE) (f : SummaryFilter)
    (subs : List Subscription) (hc : ∀ s ∈ subs, 0 ≤ s.monthlyCost) :
    0 ≤ (subs.map (fun s =>
      if eligibleB pS pE s && filterMatchB f s then
        s.monthlyCost * chargedMonths pS pE s
      else 0)).sum := by
  induction subs with
  | nil => simp
  | cons s rest ih =>
    simp only [List.map_cons, List.sum_cons]
    have h1 : 0 ≤ (if eligibleB pS pE s && filterMatchB f s then
        s.monthlyCost * chargedMonths pS pE s else 0) := by
      by_cases h : eligibleB pS pE s && filterMatchB f s
      · rw [if_pos h]
        have he : eligibleB pS pE s = true := by
          rcases Bool.and_eq_true_iff.mp h with ⟨he, _⟩
          exact he
        exact mul_nonneg (hc s (by simp)) (chargedMonths_nonneg pS pE s hle he)
      · rw [if_neg h]
    have h2 : 0 ≤ (rest.map (fun s =>
      if eligibleB pS pE s && filterMatchB f s then
        s.monthlyCost * chargedMonths pS pE s else 0)).sum :=
      ih (fun s hs => hc s (List.mem_cons_of_mem _ hs))
    omega

/-! ## Claims -/

/-- Claim C1 (counterexample): the claimed equality between the code's total
and the spec formula `max(0, min(q1, q2, q3))` fails for an inverted query
period.  One open-ended subscription (monthlyCost 100, start 01-2020)
aggregated over the validly-parsed-but-inverted period 06-2024..01-2024 is
eligible; the SQL query has no `max(0, ·)` floor and PostgreSQL `age` turns
the inverted window width `q3` into −3, so the code returns −300 while the
spec formula yields 0. -/
theorem c1_counterexample :
    ParseMonthYear "06-2024" = some ⟨6, 2024⟩ ∧
    ParseMonthYear "01-2024" = some ⟨1, 2024⟩ ∧
    CalculateTotalCost [⟨"cloud", 100, 5, monthIndex ⟨1, 2020⟩, none⟩]
      ⟨0, "", "06-2024", "01-2024"⟩ = some (-300) ∧
    specTotal [⟨"cloud", 100, 5, monthIndex ⟨1, 2020⟩, none⟩]
      (monthIndex ⟨6, 2024⟩) (monthIndex ⟨1, 2024⟩) = 0 ∧
    CalculateTotalCost [⟨"cloud", 100, 5, monthIndex ⟨1, 2020⟩, none⟩]
      ⟨0, "", "06-2024", "01-2024"⟩ ≠
      some (specTotal [⟨"cloud", 100, 5, monthIndex ⟨1, 2020⟩, none⟩]
        (monthIndex ⟨6, 2024⟩) (monthIndex ⟨1, 2024⟩)) := by
  refine ⟨rfl, rfl, by decide, by decide, by decide⟩

/-- Claim C1 (amended): for every list of subscription records and every
query period given as two validly parsed MM-YYYY tokens with
periodStart ≤ periodEnd, the total computed by `CalculateTotalCost` (no
owner/service filter) equals the sum over eligible records of monthlyCost
times `max(0, min(q1, q2, q3))`, with q1 = monthsBetween(periodEnd,
startDate), q2 = monthsBetween(endDate, periodStart) + 1 (unbounded when
endDate is absent), q3 = monthsBetween(periodEnd, periodStart) + 1, and
monthsBetween the calendar-month difference. -/
theorem c1_total_matches_spec_formula (subs : List Subscription)
    (s1 s2 : String) (d1 d2 : MonthDate)
    (h1 : ParseMonthYear s1 = some d1) (h2 : ParseMonthYear s2 = some d2)
    (hle : monthIndex d1 ≤ monthIndex d2) :
    CalculateTotalCost subs ⟨0, "", s1, s2⟩ =
      some (specTotal subs (monthIndex d1) (monthIndex d2)) := by
  unfold CalculateTotalCost
  rw [show (SummaryFilter.mk 0 "" s1 s2).startPeriod = s1 from rfl,
      show (SummaryFilter.mk 0 "" s1 s2).endPeriod = s2 from rfl, h1, h2]
  exact congrArg some
    (total_eq_spec (monthIndex d1) (monthIndex d2) hle subs ⟨0, "", s1, s2⟩ rfl rfl)

/-- Witness for C1's amended theorem at a concrete input: one subscription,
period 01-2024..12-2024. -/
theorem c1_total_matches_spec_formula_witness :
    ParseMonthYear "01-2024" = some ⟨1, 2024⟩ ∧
    CalculateTotalCost [⟨"cloud", 100, 5, monthIndex ⟨6, 2023⟩, some (monthIndex ⟨2, 2024⟩)⟩]
      ⟨0, "", "01-2024", "12-2024"⟩ =
      some (specTotal [⟨"cloud", 100, 5, monthIndex ⟨6, 2023⟩, some (monthIndex ⟨2, 2024⟩)⟩]
        (monthIndex ⟨1, 2024⟩) (monthIndex ⟨12, 2024⟩)) :=
  ⟨by decide,
   c1_total_matches_spec_formula _ "01-2024" "12-2024" ⟨1, 2024⟩ ⟨12, 2024⟩
     (by decide) (by decide) (by decide)⟩

/-- Claim C2 (counterexample): an inverted window does not yield total 0,
and the result is not nonnegative: one eligible open-ended subscription
(monthlyCost 50, start 01-2020) over the validly parsed inverted period
07-2024..02-2024 produces total −150. -/
theorem c2_counterexample :
    ParseMonthYear "07-2024" = some ⟨7, 2024⟩ ∧
    ParseMonthYear "02-2024" = some ⟨2, 2024⟩ ∧
    CalculateTotalCost [⟨"storage", 50, 3, monthIndex ⟨1, 2020⟩, none⟩]
      ⟨0, "", "07-2024", "02-2024"⟩ = some (-150) ∧ (-150 : Int) < 0 := by
  refine ⟨rfl, rfl, by decide, by decide⟩

/-- Claim C2 (amended): for every list of subscription records with
nonnegative monthlyCost (the DB CHECK makes stored costs positive), every
pair of validly parsed period tokens with periodStart ≤ periodEnd, and
every choice of filters, `CalculateTotalCost` succeeds and returns a
nonnegative integer. -/
theorem c2_total_nonneg_on_ordered_window (subs : List Subscription)
    (f : SummaryFilter) (d1 d2 : MonthDate)
    (h1 : ParseMonthYear f.startPeriod = some d1)
    (h2 : ParseMonthYear f.endPeriod = some d2)
    (hle : monthIndex d1 ≤ monthIndex d2)
    (hc : ∀ s ∈ subs, 0 ≤ s.monthlyCost) :
    ∃ t, CalculateTotalCost subs f = some t ∧ 0 ≤ t := by
  refine ⟨_, ?_, total_nonneg (monthIndex d1) (monthIndex d2) hle f subs hc⟩
  unfold CalculateTotalCost
  rw [h1, h2]

/-- Witness for C2's amended theorem at a concrete input. -/
theorem c2_total_nonneg_witness :
    ∃ t, CalculateTotalCost [⟨"storage", 50, 3, monthIndex ⟨1, 2020⟩, none⟩]
      ⟨7, "music", "02-2024", "07-2024"⟩ = some t ∧ 0 ≤ t :=
  c2_total_nonneg_on_ordered_window _ _ ⟨2, 2024⟩ ⟨7, 2024⟩
    (by decide) (by decide) (by decide) (by decide)

/-- Claim C3 (code evaluation): a single subscription with startDate
03-2024, no endDate, monthlyCost 100, aggregated over 01-2024..05-2024
with no filters, yields total 200, not the 300 the claim states: the first
`LEAST` operand (q1, from the subscription's start to the period end) lacks
the `+ 1` that the other two operands have, so the three overlap months
Mar–May are billed as 2. -/
theorem c3_code_undercharges_one_month :
    CalculateTotalCost [⟨"netflix", 100, 7, monthIndex ⟨3, 2024⟩, none⟩]
      ⟨0, "", "01-2024", "05-2024"⟩ = some 200 := by
  decide

/-- Claim C4 (code evaluation): a subscription active 01-2024..12-2024 with
monthlyCost 100, aggregated over exactly 01-2024..01-2024, yields total 0,
not one month's cost as the claim states: q1 = monthsBetween(periodEnd,
startDate) = 0 with no `+ 1`, so `LEAST` is 0. -/
theorem c4_code_charges_zero_months :
    CalculateTotalCost
      [⟨"spotify", 100, 9, monthIndex ⟨1, 2024⟩, some (monthIndex ⟨12, 2024⟩)⟩]
      ⟨0, "", "01-2024", "01-2024"⟩ = some 0 := by
  decide

/-- Claim C5: for every subscription record and validly parsed query
period, a record failing the eligibility test `startDate ≤ periodEnd AND
(endDate absent OR endDate ≥ periodStart)` contributes nothing to the
aggregated total, for every choice of filters: dropping it from the record
set leaves the total unchanged. -/
theorem c5_ineligible_contributes_nothing (sub : Subscription)
    (subs : List Subscription) (f : SummaryFilter) (d1 d2 : MonthDate)
    (h1 : ParseMonthYear f.startPeriod = some d1)
    (h2 : ParseMonthYear f.endPeriod = some d2)
    (hne : eligibleB (monthIndex d1) (monthIndex d2) sub = false) :
    CalculateTotalCost (sub :: subs) f = CalculateTotalCost subs f := by
  unfold CalculateTotalCost
  rw [h1, h2]
  simp [hne]

/-- Witness for C5 at a concrete input: a subscription starting after the
period end is ineligible and contributes nothing. -/
theorem c5_ineligible_witness :
    eligibleB (monthIndex ⟨1, 2024⟩) (monthIndex ⟨5, 2024⟩)
      ⟨"late", 10, 1, monthIndex ⟨6, 2024⟩, none⟩ = false ∧
    CalculateTotalCost [⟨"late", 10, 1, monthIndex ⟨6, 2024⟩, none⟩]
      ⟨0, "", "01-2024", "05-2024"⟩ = CalculateTotalCost [] ⟨0, "", "01-2024", "05-2024"⟩ :=
  ⟨by decide,
   c5_ineligible_contributes_nothing _ [] _ ⟨1, 2024⟩ ⟨5, 2024⟩
     (by decide) (by decide) (by decide)⟩

/-- Claim C6: for every pair of validly parsed period tokens and every
choice of filters, `CalculateTotalCost` over an empty record set — or a set
in which every record is excluded by the filters or the eligibility test —
returns `some 0`: the aggregation step itself has no failure path. -/
theorem c6_empty_or_fully_filtered_yields_zero (subs : List Subscription)
    (f : SummaryFilter) (d1 d2 : MonthDate)
    (h1 : ParseMonthYear f.startPeriod = some d1)
    (h2 : ParseMonthYear f.endPeriod = some d2) :
    CalculateTotalCost [] f = some 0 ∧
      ((∀ s ∈ subs,
          (eligibleB (monthIndex d1) (monthIndex d2) s && filterMatchB f s) = false) →
        CalculateTotalCost subs f = some 0) := by
  constructor
  · unfold CalculateTotalCost
    rw [h1, h2]
    rfl
  · intro hall
    unfold CalculateTotalCost
    rw [h1, h2]
    refine congrArg some ?_
    induction subs with
    | nil => rfl
    | cons s rest ih =>
      simp only [List.map_cons, List.sum_cons]
      rw [hall s (by simp), if_neg (by simp)]
      rw [ih (fun s hs => hall s (List.mem_cons_of_mem _ hs))]
      simp

/-- Witness for C6 at a concrete input: empty set, and a set whose single
record is excluded by the service filter. -/
theorem c6_empty_witness :
    CalculateTotalCost [] (⟨0, "music", "01-2024", "05-2024"⟩ : SummaryFilter) = some 0 ∧
      ((∀ s ∈ [(⟨"video", 10, 1, monthIndex ⟨1, 2024⟩, none⟩ : Subscription)],
          (eligibleB (monthIndex ⟨1, 2024⟩) (monthIndex ⟨5, 2024⟩) s &&
            filterMatchB ⟨0, "music", "01-2024", "05-2024"⟩ s) = false) →
        CalculateTotalCost [⟨"video", 10, 1, monthIndex ⟨1, 2024⟩, none⟩]
          ⟨0, "music", "01-2024", "05-2024"⟩ = some 0) :=
  c6_empty_or_fully_filtered_yields_zero _ _ ⟨1, 2024⟩ ⟨5, 2024⟩ (by decide) (by decide)

/-- Claim C7 (counterexample): `validateDates` does NOT fail with
InvalidRange whenever the end date is present and strictly precedes the
start date: an end date equal to the Go zero time (the parse of "01-0001")
skips the range check entirely, so start 05-2024 with end 01-0001 is
accepted. -/
theorem c7_counterexample :
    validateDates ⟨5, 2024⟩ (some ⟨1, 1⟩) = none ∧
    beforeDate ⟨1, 1⟩ ⟨5, 2024⟩ = true := by
  decide

/-- Claim C7 (amended): provided the start date is not the zero month
01-0001 (which fails with MissingStart before any range check),
`validateDates` fails with InvalidRange iff the end date is present, is not
itself the zero month 01-0001, and strictly precedes the start; it never
fails with InvalidRange when the end date is absent, and equality of end
and start is accepted. -/
theorem c7_validate_range_amended (s e : MonthDate) (hs : isZeroDate s = false) :
    (validateDates s (some e) = some .invalidRange ↔
      (isZeroDate e = false ∧ beforeDate e s = true)) ∧
    validateDates s none = none ∧
    validateDates s (some s) = none := by
  refine ⟨?_, ?_, ?_⟩
  · simp only [validateDates, hs, Bool.false_eq_true, if_false]
    by_cases h : !isZeroDate e && beforeDate e s
    · rw [if_pos h]
      rcases Bool.and_eq_true_iff.mp h with ⟨h1, h2⟩
      simp [Bool.not_eq_true'] at h1
      simp [h1, h2]
    · rw [if_neg h]
      simp only [Bool.and_eq_true, Bool.not_eq_true'] at h
      constructor
      · intro hc; cases hc
      · intro ⟨h1, h2⟩
        exact absurd ⟨h1, h2⟩ h
  · simp [validateDates, hs]
  · simp only [validateDates, hs, Bool.false_eq_true, if_false]
    have : beforeDate s s = false := by simp [beforeDate]
    simp [this]

/-- Witness for C7's amended theorem at a concrete input. -/
theorem c7_validate_range_witness :
    isZeroDate ⟨5, 2024⟩ = false ∧
    (validateDates ⟨5, 2024⟩ (some ⟨3, 2024⟩) = some .invalidRange ↔
      (isZeroDate ⟨3, 2024⟩ = false ∧ beforeDate ⟨3, 2024⟩ ⟨5, 2024⟩ = true)) ∧
    validateDates ⟨5, 2024⟩ none = none ∧
    validateDates ⟨5, 2024⟩ (some ⟨5, 2024⟩) = none :=
  ⟨by decide, c7_validate_range_amended ⟨5, 2024⟩ ⟨3, 2024⟩ (by decide)⟩

/-- Claim C8: `ParseMonthYear` rejects "13-2024" (month out of range),
"00-2024" (month out of range), "" (empty) and "2024-01" (malformed:
no dash at position 2): no date is returned for any of the four. -/
theorem c8_invalid_tokens_rejected :
    ParseMonthYear "13-2024" = none ∧ ParseMonthYear "00-2024" = none ∧
    ParseMonthYear "" = none ∧ ParseMonthYear "2024-01" = none := by
  decide

/-- Claim C9: for every valid "MM-YYYY" token (two-digit month 01–12,
four-digit year), `ParseMonthYear` succeeds and re-formatting its result
with `formatMonthYear` reproduces the original token exactly. -/
theorem c9_parse_format_roundtrip (s : String) (m y : Nat)
    (h1 : 1 ≤ m) (h2 : m ≤ 12) (h3 : y ≤ 9999)
    (hs : s = formatMonthYear ⟨m, y⟩) :
    ParseMonthYear s = some ⟨m, y⟩ ∧ formatMonthYear ⟨m, y⟩ = s := by
  subst hs
  exact ⟨parse_format m y h1 h2 h3, rfl⟩

/-- Witness for C9 at a concrete token. -/
theorem c9_parse_format_roundtrip_witness :
    "03-2024" = formatMonthYear ⟨3, 2024⟩ ∧
    ParseMonthYear "03-2024" = some ⟨3, 2024⟩ ∧
    formatMonthYear ⟨3, 2024⟩ = "03-2024" :=
  ⟨by decide,
   c9_parse_format_roundtrip "03-2024" 3 2024 (by decide) (by decide) (by decide) (by decide)⟩

/-- Claim C10: the owner and service filters are sentinel-encoded: with
ownerFilter = the all-zero UUID (`userID = 0`) and serviceFilter = the
empty string, `CalculateTotalCost` returns exactly the unfiltered total;
moreover with `userID = 0` the total is invariant under arbitrarily
rewriting every record's userID (so the total cannot be restricted to
owners with the zero UUID), and with `serviceName = ""` it is invariant
under arbitrarily rewriting every record's serviceName. -/
theorem c10_sentinel_filters (subs : List Subscription) (sp ep : String)
    (d1 d2 : MonthDate)
    (h1 : ParseMonthYear sp = some d1) (h2 : ParseMonthYear ep = some d2) :
    CalculateTotalCost subs ⟨0, "", sp, ep⟩ =
      some (totalUnfiltered subs (monthIndex d1) (monthIndex d2)) ∧
    (∀ (sn : String) (g : Subscription → Nat),
      CalculateTotalCost (subs.map (fun s => { s with userID := g s })) ⟨0, sn, sp, ep⟩ =
        CalculateTotalCost subs ⟨0, sn, sp, ep⟩) ∧
    (∀ (u : Nat) (g : Subscription → String),
      CalculateTotalCost (subs.map (fun s => { s with serviceName := g s })) ⟨u, "", sp, ep⟩ =
        CalculateTotalCost subs ⟨u, "", sp, ep⟩) := by
  refine ⟨?_, ?_, ?_⟩
  · unfold CalculateTotalCost
    rw [show (SummaryFilter.mk 0 "" sp ep).startPeriod = sp from rfl,
        show (SummaryFilter.mk 0 "" sp ep).endPeriod = ep from rfl, h1, h2]
    refine congrArg some ?_
    unfold totalUnfiltered
    exact congrArg List.sum (List.map_congr_left fun s _ => by simp [filterMatchB])
  · intro sn g
    unfold CalculateTotalCost
    rw [show (SummaryFilter.mk 0 sn sp ep).startPeriod = sp from rfl,
        show (SummaryFilter.mk 0 sn sp ep).endPeriod = ep from rfl, h1, h2]
    refine congrArg some ?_
    rw [List.map_map]
    refine congrArg List.sum (List.map_congr_left fun s _ => ?_)
    have h4 : filterMatchB ⟨0, sn, sp, ep⟩ { s with userID := g s } =
        filterMatchB ⟨0, sn, sp, ep⟩ s := by
      simp [filterMatchB]
    simp only [Function.comp_apply, h4]
    rfl
  · intro u g
    unfold CalculateTotalCost
    rw [show (SummaryFilter.mk u "" sp ep).startPeriod = sp from rfl,
        show (SummaryFilter.mk u "" sp ep).endPeriod = ep from rfl, h1, h2]
    refine congrArg some ?_
    rw [List.map_map]
    refine congrArg List.sum (List.map_congr_left fun s _ => ?_)
    have h4 : filterMatchB ⟨u, "", sp, ep⟩ { s with serviceName := g s } =
        filterMatchB ⟨u, "", sp, ep⟩ s := by
      simp [filterMatchB]
    simp only [Function.comp_apply, h4]
    rfl

/-- Witness for C10 at a concrete input: one record whose owner is the
zero UUID is still counted with the sentinel filter. -/
theorem c10_sentinel_filters_witness :
    ParseMonthYear "01-2024" = some ⟨1, 2024⟩ ∧
    CalculateTotalCost [⟨"video", 10, 0, monthIndex ⟨1, 2024⟩, none⟩]
      ⟨0, "", "01-2024", "05-2024"⟩ =
      some (totalUnfiltered [⟨"video", 10, 0, monthIndex ⟨1, 2024⟩, none⟩]
        (monthIndex ⟨1, 2024⟩) (monthIndex ⟨5, 2024⟩)) :=
  ⟨by decide,
   (c10_sentinel_filters _ "01-2024" "05-2024" ⟨1, 2024⟩ ⟨5, 2024⟩
     (by decide) (by decide)).1⟩

end SubService
